import Mathlib

/-!
# Verification of the domain-intel repository against its design specification

This file embeds, in Lean 4, the parts of the repository that the claims
under review are about:

* the domain risk-scoring aggregator (`Risk`): the backend component is not
  part of the checked-out sources (only its frontend callers are), so it is
  modelled from the specification's algorithm, rule table and data model;
* the frontend API types and authentication helpers of
  `frontend/src/lib/api.ts` (`Api`, `Auth`);
* the presentation helpers of `RiskAssessmentCard.tsx` and
  `SecurityConfigurationCard.tsx` (`Card`);
* the threat-statistics page logic of `GlobalThreats.tsx` (`Threats`).

The frontend code is TypeScript running in a browser.  JavaScript string and
number primitives used by that code (split, trim, toLowerCase, includes,
atob, JSON.parse, ToNumber coercion) are given executable Lean definitions
over `List Char` mirroring the JavaScript semantics, so that every theorem
can be checked by evaluation.  JavaScript numbers are modelled as exact
rationals (numerator over a positive power-of-ten denominator); IEEE-754
rounding is idealised away, which is exact for all quantities occurring in
the claims (timestamps and second counts well below 2^53).
-/

namespace JsStr

/-- The quote character, kept as a named constant. -/
def dquote : Char := Char.ofNat 34

/-- The backslash character, kept as a named constant. -/
def bslash : Char := Char.ofNat 92

/-- Opening curly bracket, kept as a named constant. -/
def lcurly : Char := Char.ofNat 123

/-- Closing curly bracket, kept as a named constant. -/
def rcurly : Char := Char.ofNat 125

/-- JavaScript `String.prototype.split` with a one-character separator:
`"a.b".split('.') = ["a","b"]`, `"".split('.') = [""]`. -/
def splitOnChar (sep : Char) : List Char → List (List Char)
  | [] => [[]]
  | c :: cs =>
    let r := splitOnChar sep cs
    if c = sep then [] :: r
    else
      match r with
      | [] => [[c]]
      | h :: t => (c :: h) :: t

/-- Whitespace for JavaScript `trim` / `ToNumber` (ASCII whitespace, NBSP,
line and paragraph separators, BOM). -/
def jsWsChar (c : Char) : Bool :=
  c.toNat = 9 ∨ c.toNat = 10 ∨ c.toNat = 11 ∨ c.toNat = 12 ∨ c.toNat = 13 ∨
    c.toNat = 32 ∨ c.toNat = 160 ∨ c.toNat = 8232 ∨ c.toNat = 8233 ∨ c.toNat = 65279

/-- JavaScript `String.prototype.trim`. -/
def jsTrim (s : String) : String :=
  (((s.data.dropWhile jsWsChar).reverse.dropWhile jsWsChar).reverse).asString

/-- ASCII lower-casing of one character (JavaScript `toLowerCase` restricted
to ASCII, which covers all data involved). -/
def lowerChar (c : Char) : Char :=
  if 65 ≤ c.toNat ∧ c.toNat ≤ 90 then Char.ofNat (c.toNat + 32) else c

/-- JavaScript `String.prototype.toLowerCase` (ASCII). -/
def jsLower (s : String) : String := (s.data.map lowerChar).asString

/-- JavaScript `String.prototype.includes`: `needle` occurs contiguously in
`hay` (the empty needle always occurs). -/
def hasInfix : List Char → List Char → Bool
  | hay, needle =>
    if needle.isPrefixOf hay then true
    else
      match hay with
      | [] => false
      | _ :: t => hasInfix t needle

/-- `s` begins with the string `pre` (JavaScript `startsWith`). -/
def jsStartsWith (s pre : String) : Bool := pre.data.isPrefixOf s.data

end JsStr

/-!
## The risk-scoring aggregator, modelled from the specification

The backend implementation of `evaluate` is not among the repository's
checked-out files (the frontend only consumes its JSON output), so the
component is modelled from the specification: §3 DATA MODEL (`DomainFacts`,
`RiskAssessment`), §4.1 Algorithm steps 1-6 (the ordered penalty-rule table,
clamping, thresholds, confidence) and §7 (unknown facts make a rule not
fire).  All penalty weights are whole multiples of 0.1, so scores are
represented exactly as integer tenths: a spec score `s` corresponds to
`score10 = 10 * s`; rounding to one decimal place is then the identity.
-/

namespace Risk

/-- Modelled from the spec: the `hostingType` enumeration of §3
(`datacenter`, `residential`, `cdn`, `unknown`). -/
inductive HostingType
  | datacenter
  | residential
  | cdn
  | unknown
deriving DecidableEq, Repr

/-- Modelled from the spec: the risk tier `level` of §3. -/
inductive RiskLevel
  | LOW
  | MEDIUM
  | HIGH
deriving DecidableEq, Repr

/-- Modelled from the spec: the `confidence` enumeration of §3. -/
inductive Confidence
  | LOW
  | MEDIUM
  | HIGH
deriving DecidableEq, Repr

/-- Modelled from the spec: the `DomainFacts` input record of §3.  §6 and §9
require every fact that can fail to be looked up to be representable as
`unknown` (an optional wrapper per field, `none` = unknown), and §4.1 step 6
counts up to nine unknown facts, so each of the nine fields carries its own
unknown state; `hostingType` carries it as its `unknown` member. -/
structure DomainFacts where
  domainAgeDays : Option Int
  registrarKnown : Option Bool
  httpsEnabled : Option Bool
  sslValid : Option Bool
  sslExpiryDaysRemaining : Option Int
  blacklisted : Option Bool
  blacklistSourceCount : Option Nat
  hostingType : HostingType
  nameserverCount : Option Nat
deriving DecidableEq, Repr

/-- Modelled from the spec: the `RiskAssessment` output record of §3, with
`score` kept in integer tenths (`score10 = 10 * score`). -/
structure RiskAssessment where
  score10 : Int
  level : RiskLevel
  reasons : List String
  confidence : Confidence
deriving DecidableEq, Repr

/-- Modelled from the spec: rule "domain age < 30 days → −3.0"; an unknown
age makes the rule not fire (§7). -/
def rule1 (f : DomainFacts) : List (Int × String) :=
  match f.domainAgeDays with
  | some a => if a < 30 then [(30, "Recently registered domain")] else []
  | none => []

/-- Modelled from the spec: rule "domain age < 7 days → additional −2.0". -/
def rule2 (f : DomainFacts) : List (Int × String) :=
  match f.domainAgeDays with
  | some a => if a < 7 then [(20, "Domain registered within the last week")] else []
  | none => []

/-- Modelled from the spec: rule "registrar unknown → −1.0" (fires when the
registrar is known to be unavailable, i.e. the fact is present and false). -/
def rule3 (f : DomainFacts) : List (Int × String) :=
  match f.registrarKnown with
  | some r => if r then [] else [(10, "Registrar information unavailable")]
  | none => []

/-- Modelled from the spec: rule "HTTPS disabled → −2.0". -/
def rule4 (f : DomainFacts) : List (Int × String) :=
  match f.httpsEnabled with
  | some h => if h then [] else [(20, "No HTTPS encryption")]
  | none => []

/-- Modelled from the spec: rule "HTTPS enabled but SSL invalid → −2.5". -/
def rule5 (f : DomainFacts) : List (Int × String) :=
  match f.httpsEnabled, f.sslValid with
  | some true, some v => if v then [] else [(25, "Invalid SSL certificate")]
  | _, _ => []

/-- Modelled from the spec: rule "SSL expiring within 30 days → −0.5"
(expiry day count present and below 30). -/
def rule6 (f : DomainFacts) : List (Int × String) :=
  match f.sslExpiryDaysRemaining with
  | some d => if d < 30 then [(5, "SSL certificate expiring soon")] else []
  | none => []

/-- Modelled from the spec: rule "blacklisted → −4.0 minus
0.5 × min(blacklistSourceCount, 4)", reason
"Listed on N threat intelligence source(s)"; an unknown source count
contributes as 0. -/
def rule7 (f : DomainFacts) : List (Int × String) :=
  match f.blacklisted with
  | some true =>
    let n := f.blacklistSourceCount.getD 0
    [(40 + 5 * (min n 4 : Nat),
      "Listed on " ++ toString n ++ " threat intelligence source(s)")]
  | _ => []

/-- Modelled from the spec: rule "hostingType == residential → −1.0". -/
def rule8 (f : DomainFacts) : List (Int × String) :=
  if f.hostingType = HostingType.residential then
    [(10, "Hosted on residential/consumer network")]
  else []

/-- Modelled from the spec: rule "nameserverCount == 0 → −1.0". -/
def rule9 (f : DomainFacts) : List (Int × String) :=
  match f.nameserverCount with
  | some n => if n = 0 then [(10, "No nameservers configured")] else []
  | none => []

/-- Modelled from the spec: the fixed, ordered penalty-rule table of §4.1
step 2, evaluated in declaration order; each entry is (weight in tenths,
reason). -/
def ruleHits (f : DomainFacts) : List (Int × String) :=
  rule1 f ++ rule2 f ++ rule3 f ++ rule4 f ++ rule5 f ++ rule6 f ++
    rule7 f ++ rule8 f ++ rule9 f

/-- Modelled from the spec: the cumulative penalty (in tenths). -/
def totalPenalty (f : DomainFacts) : Int := ((ruleHits f).map Prod.fst).sum

/-- Modelled from the spec: §4.1 steps 1-3 — start from 10.0, subtract the
penalties, clamp to [1.0, 10.0] (all in tenths; rounding to one decimal is
the identity here). -/
def scoreOf (f : DomainFacts) : Int := max 10 (min 100 (100 - totalPenalty f))

/-- Modelled from the spec: §4.1 step 4 — score ≥ 7.0 → LOW,
4.0 ≤ score < 7.0 → MEDIUM, score < 4.0 → HIGH. -/
def levelOf (s : Int) : RiskLevel :=
  if 70 ≤ s then RiskLevel.LOW
  else if 40 ≤ s then RiskLevel.MEDIUM
  else RiskLevel.HIGH

/-- Modelled from the spec: how many of the nine input facts are unknown. -/
def unknownCount (f : DomainFacts) : Nat :=
  [f.domainAgeDays.isNone, f.registrarKnown.isNone, f.httpsEnabled.isNone,
    f.sslValid.isNone, f.sslExpiryDaysRemaining.isNone, f.blacklisted.isNone,
    f.blacklistSourceCount.isNone, f.hostingType = HostingType.unknown,
    f.nameserverCount.isNone].count true

/-- Modelled from the spec: §4.1 step 6 — HIGH if no fact is unknown,
MEDIUM for 1-2 unknown facts, LOW for 3 or more. -/
def confidenceOf (u : Nat) : Confidence :=
  if 3 ≤ u then Confidence.LOW
  else if 1 ≤ u then Confidence.MEDIUM
  else Confidence.HIGH

/-- Modelled from the spec: `evaluate(facts) -> RiskAssessment` (§4.1), a
pure function assembling score, level, reasons in rule order (step 5) and
confidence. -/
def evaluate (f : DomainFacts) : RiskAssessment :=
  { score10 := scoreOf f
    level := levelOf (scoreOf f)
    reasons := (ruleHits f).map Prod.snd
    confidence := confidenceOf (unknownCount f) }

end Risk

/-!
## Frontend API types (`frontend/src/lib/api.ts`)
-/

namespace Api

/-- The `SecurityInfo` interface of `api.ts` (lines 39-46): `https_enabled`,
`ssl_valid` and `blacklisted` are declared as plain `boolean`; `ssl_issuer`,
`ssl_expiry` and `blacklist_sources` are optional (`?`), modelled as
`Option` (`none` = the field is absent). -/
structure SecurityInfo where
  https_enabled : Bool
  ssl_valid : Bool
  ssl_issuer : Option String
  ssl_expiry : Option String
  blacklisted : Bool
  blacklist_sources : Option (List String)
deriving DecidableEq, Repr

/-- A `Bool`-valued field of `SecurityInfo` offers a tri-state
(present/absent/unknown) representation when three pairwise-distinct
knowledge states can be stored in it: there are `SecurityInfo` values whose
field distinguishes `none` (unknown), `some false` and `some true`. -/
def boolFieldTriState (g : SecurityInfo → Bool) : Prop :=
  ∃ f : Option Bool → SecurityInfo, Function.Injective (fun ob => g (f ob))

end Api

/-!
## Presentation helpers (`RiskAssessmentCard.tsx`, `SecurityConfigurationCard.tsx`)
-/

namespace Card

/-- The string carried by a `risk_level` value: in TypeScript the level IS
one of the literal strings "LOW" | "MEDIUM" | "HIGH" (`api.ts` line 12). -/
def riskLevelString : Risk.RiskLevel → String
  | Risk.RiskLevel.LOW => "LOW"
  | Risk.RiskLevel.MEDIUM => "MEDIUM"
  | Risk.RiskLevel.HIGH => "HIGH"

/-- The badge text of `RiskAssessmentCard.tsx` line 60:
`level === "HIGH" ? "CRITICAL" : level`. -/
def riskBadgeText (level : Risk.RiskLevel) : String :=
  if level = Risk.RiskLevel.HIGH then "CRITICAL" else riskLevelString level

/-- `formatSslExpiry` of `SecurityConfigurationCard.tsx` lines 41-68.
`parseDate` stands for the JavaScript `new Date(expiryStr).getTime()`
(returning `none` for an Invalid Date, i.e. `isNaN(expiry.getTime())`) and
`fmtDate` for `toLocaleDateString("en-US", ...)`, both browser built-ins
taken as parameters; `nowMs` is `Date.now()` in milliseconds.  The guard
`if (!expiryStr)` is JavaScript falsiness: it catches both an absent
argument and the empty string.  `Math.floor` of the real-number division is
`Int.fdiv`.  The `catch` branch of the source is unreachable for a valid
parse, so it does not appear. The valid-date body (lines 48-64) is factored
out as `formatParsed`, with the source's local constants `diffMs`,
`daysLeft` and `dateStr` inlined (`daysLeft` is
`Int.fdiv (t - nowMs) 86400000`); `formatSslExpiry` below is the dispatch
around it. -/
def formatParsed (fmtDate : Int → String) (nowMs t : Int) : String × Bool :=
  if Int.fdiv (t - nowMs) 86400000 < 0 then
    ("EXPIRED (" ++ fmtDate t ++ ")", true)
  else if Int.fdiv (t - nowMs) 86400000 < 30 then
    (fmtDate t ++ " (" ++ toString (Int.fdiv (t - nowMs) 86400000) ++ " days left!)", true)
  else
    (fmtDate t ++ " (" ++ toString (Int.fdiv (t - nowMs) 86400000) ++ " days left)", false)

/-- The dispatch of `formatSslExpiry` over its argument; the valid-date body
is `formatParsed` above. -/
def formatSslExpiry (parseDate : String → Option Int) (fmtDate : Int → String)
    (nowMs : Int) : Option String → String × Bool
  | none => ("—", false)
  | some s =>
    if s = "" then ("—", false)
    else
      match parseDate s with
      | none => (s, false)
      | some t => formatParsed fmtDate nowMs t

/-- A date-parse function that parses nothing, used to instantiate the
`parseDate` parameter at concrete inputs (JavaScript's `new Date("")` is
also an Invalid Date). -/
def noDate : String → Option Int := fun _ => none

/-- A date formatter returning a fixed text, used to instantiate the
`fmtDate` parameter at concrete inputs. -/
def fixedFmt : Int → String := fun _ => "Jan 1, 2026"

end Card

/-!
## The GlobalThreats page statistics (`GlobalThreats.tsx`)

The page computes its data from the constant array `DEMO_MAP_DATA`
(imported from a version of `api.ts` that is not among the checked-out
files), so the dataset is a parameter here; only the fields the statistics
read (`city`, `type`, `severity`) are modelled.
-/

namespace Threats

/-- A threat-map entry with the fields `GlobalThreats.tsx` reads. -/
structure ThreatPoint where
  city : String
  type : String
  severity : String
deriving DecidableEq, Repr

/-- The `filteredData` memo of `GlobalThreats.tsx` lines 110-117: an empty
or whitespace-only search term (`!searchTerm.trim()`) returns the full
dataset; otherwise keep the entries whose city or type contains the
(untrimmed) search term case-insensitively. -/
def filteredThreats (data : List ThreatPoint) (searchTerm : String) :
    List ThreatPoint :=
  if JsStr.jsTrim searchTerm = "" then data
  else
    data.filter fun item =>
      JsStr.hasInfix (JsStr.jsLower item.city).data (JsStr.jsLower searchTerm).data ||
        JsStr.hasInfix (JsStr.jsLower item.type).data (JsStr.jsLower searchTerm).data

/-- Keys in order of first occurrence, as a JavaScript object records them
(accumulator-based first-occurrence dedup). -/
def dedupFirstGo (seen : List String) : List String → List String
  | [] => []
  | x :: xs => if x ∈ seen then dedupFirstGo seen xs else x :: dedupFirstGo (x :: seen) xs

/-- Keys in order of first occurrence. -/
def dedupFirst (l : List String) : List String := dedupFirstGo [] l

/-- The city-count entries in JavaScript `Object.entries` order: one entry
per city, keyed in order of first occurrence, counting occurrences in the
list (the `cityCount` reduce of lines 125-128). -/
def cityEntries (l : List ThreatPoint) : List (String × Nat) :=
  (dedupFirst (l.map (·.city))).map fun c => (c, l.countP (fun t => t.city == c))

/-- The head of the entry list after the stable descending sort by count of
lines 130-131 (`.sort(([, a], [, b]) => b - a)[0]`): the entry with the
largest count, ties resolved in favour of the earlier entry (JavaScript's
sort is stable). -/
def topEntry : List (String × Nat) → Option (String × Nat)
  | [] => none
  | e :: rest =>
    match topEntry rest with
    | none => some e
    | some b => if e.2 < b.2 then some b else some e

/-- The `highAlertZone` statistic of lines 133-135:
`searchTerm ? (topCity ? topCity[0] : "N/A") : "Jamtara, JH"` — the
hard-coded constant is used exactly when `searchTerm` is falsy, i.e. the
empty string; any non-empty term (whitespace included) selects the computed
top city of the filtered data. -/
def highAlertZone (data : List ThreatPoint) (searchTerm : String) : String :=
  if searchTerm = "" then "Jamtara, JH"
  else
    match topEntry (cityEntries (filteredThreats data searchTerm)) with
    | some e => e.1
    | none => "N/A"

/-- A one-element dataset used as a concrete instance. -/
def demoData1 : List ThreatPoint := [⟨"Mumbai", "Phishing", "Critical"⟩]

end Threats

/-!
## Authentication helper (`frontend/src/lib/api.ts`, `isAuthenticated`)

`isAuthenticated` reads the stored token, takes `token.split('.')[1]`,
applies `atob` and `JSON.parse` inside a try/catch, reads `payload.exp`,
multiplies by 1000 under JavaScript number coercion and compares with
`Date.now()`.  Each browser built-in involved is given an executable
definition: `atob` as WHATWG forgiving-base64, `JSON.parse` as a fuelled
recursive-descent parser of the JSON grammar, and the implicit `ToNumber`
coercion of `exp * 1000` over the parsed values.  Numbers are exact
rationals with power-of-ten denominators (IEEE-754 rounding idealised
away); `\uXXXX` escapes denoting lone surrogates are idealised to NUL.
-/

namespace Auth

/-- ASCII whitespace removed by forgiving-base64 (TAB, LF, FF, CR, SPACE). -/
def b64Ws (c : Char) : Bool :=
  c.toNat = 9 ∨ c.toNat = 10 ∨ c.toNat = 12 ∨ c.toNat = 13 ∨ c.toNat = 32

/-- The value of a base64 alphabet character, `none` outside the alphabet. -/
def b64Val (c : Char) : Option Nat :=
  let n := c.toNat
  if 65 ≤ n ∧ n ≤ 90 then some (n - 65)
  else if 97 ≤ n ∧ n ≤ 122 then some (n - 97 + 26)
  else if 48 ≤ n ∧ n ≤ 57 then some (n - 48 + 52)
  else if n = 43 then some 62
  else if n = 47 then some 63
  else none

/-- Strip up to two trailing `=` padding characters. -/
def dropPad (cs : List Char) : List Char :=
  let cs1 := if cs.getLast? = some '=' then cs.dropLast else cs
  if cs1.getLast? = some '=' then cs1.dropLast else cs1

/-- Map every character to its base64 value, failing on a foreign one. -/
def sextets : List Char → Option (List Nat)
  | [] => some []
  | c :: cs =>
    match b64Val c, sextets cs with
    | some v, some vs => some (v :: vs)
    | _, _ => none

/-- Reassemble 6-bit groups into bytes; a leftover of two sextets yields one
byte, of three sextets two bytes (forgiving-base64 discards the spare bits). -/
def b64Bytes : List Nat → List Nat
  | a :: b :: c :: d :: rest =>
    (a * 4 + b / 16) :: ((b % 16) * 16 + c / 4) :: ((c % 4) * 64 + d) :: b64Bytes rest
  | [a, b] => [a * 4 + b / 16]
  | [a, b, c] => [a * 4 + b / 16, (b % 16) * 16 + c / 4]
  | _ => []

/-- The browser `atob`: WHATWG forgiving-base64 decode — strip ASCII
whitespace, strip up to two `=` when the length is a multiple of four, fail
on length ≡ 1 (mod 4) or on any character outside the alphabet; the decoded
bytes come back as a string of U+0000–U+00FF code points.  `none` models the
`InvalidCharacterError` the browser throws. -/
def atobJS (s : String) : Option String :=
  let cs0 := s.data.filter fun c => !(b64Ws c)
  let cs := if cs0.length % 4 = 0 then dropPad cs0 else cs0
  if cs.length % 4 = 1 then none
  else
    match sextets cs with
    | none => none
    | some vs => some (((b64Bytes vs).map Char.ofNat).asString)

/-- An exact rational with positive denominator (always a power of ten by
construction): the value is `num / den`. -/
structure JRat where
  num : Int
  den : Nat
deriving DecidableEq, Repr

/-- A JavaScript number: NaN, a signed infinity, or a finite exact value. -/
inductive JsNum
  | nan
  | inf (neg : Bool)
  | fin (q : JRat)
deriving DecidableEq, Repr

/-- A parsed JSON value (`JSON.parse` output).  Object members are kept in
source order; property lookup takes the last duplicate, as JavaScript
assignment does. -/
inductive Json
  | null
  | bool (b : Bool)
  | num (q : JRat)
  | str (s : String)
  | arr (elems : List Json)
  | obj (members : List (String × Json))

/-- JSON insignificant whitespace (space, TAB, LF, CR). -/
def jsonWs (c : Char) : Bool :=
  c.toNat = 9 ∨ c.toNat = 10 ∨ c.toNat = 13 ∨ c.toNat = 32

/-- Skip JSON whitespace. -/
def skipWs (cs : List Char) : List Char := cs.dropWhile jsonWs

/-- ASCII digit test. -/
def isDigitC (c : Char) : Bool := 48 ≤ c.toNat ∧ c.toNat ≤ 57

/-- Decimal value of a digit string. -/
def digitsToNat (ds : List Char) : Nat :=
  ds.foldl (fun a c => 10 * a + (c.toNat - 48)) 0

/-- Split off the longest leading run of digits. -/
def takeDigits : List Char → List Char × List Char
  | [] => ([], [])
  | c :: cs =>
    if isDigitC c then
      let (d, r) := takeDigits cs
      (c :: d, r)
    else ([], c :: cs)

/-- Hexadecimal value of a digit, `none` otherwise. -/
def hexDigitVal (c : Char) : Option Nat :=
  let n := c.toNat
  if 48 ≤ n ∧ n ≤ 57 then some (n - 48)
  else if 97 ≤ n ∧ n ≤ 102 then some (n - 97 + 10)
  else if 65 ≤ n ∧ n ≤ 70 then some (n - 65 + 10)
  else none

/-- Octal value of a digit, `none` otherwise. -/
def octDigitVal (c : Char) : Option Nat :=
  let n := c.toNat
  if 48 ≤ n ∧ n ≤ 55 then some (n - 48) else none

/-- Binary value of a digit, `none` otherwise. -/
def binDigitVal (c : Char) : Option Nat :=
  let n := c.toNat
  if n = 48 ∨ n = 49 then some (n - 48) else none

/-- JSON string body after the opening quote: plain characters, the JSON
escapes and `\uXXXX`; unescaped control characters are rejected, as
`JSON.parse` rejects them. -/
def pStrGo (acc : List Char) : List Char → Option (String × List Char)
  | [] => none
  | c :: cs =>
    if c = JsStr.dquote then some (acc.reverse.asString, cs)
    else if c = JsStr.bslash then
      match cs with
      | [] => none
      | e :: cs2 =>
        if e = JsStr.dquote then pStrGo (JsStr.dquote :: acc) cs2
        else if e = JsStr.bslash then pStrGo (JsStr.bslash :: acc) cs2
        else if e = '/' then pStrGo ('/' :: acc) cs2
        else if e = 'b' then pStrGo (Char.ofNat 8 :: acc) cs2
        else if e = 'f' then pStrGo (Char.ofNat 12 :: acc) cs2
        else if e = 'n' then pStrGo (Char.ofNat 10 :: acc) cs2
        else if e = 'r' then pStrGo (Char.ofNat 13 :: acc) cs2
        else if e = 't' then pStrGo (Char.ofNat 9 :: acc) cs2
        else if e = 'u' then
          match cs2 with
          | h1 :: h2 :: h3 :: h4 :: cs3 =>
            match hexDigitVal h1, hexDigitVal h2, hexDigitVal h3, hexDigitVal h4 with
            | some a, some b, some c2, some d =>
              pStrGo (Char.ofNat (((a * 16 + b) * 16 + c2) * 16 + d) :: acc) cs3
            | _, _, _, _ => none
          | _ => none
        else none
    else if c.toNat < 32 then none
    else pStrGo (c :: acc) cs

/-- An optional exponent part `e`/`E` with optional sign and mandatory
digits; absent exponent is 0. -/
def pExponent (cs : List Char) : Option (Int × List Char) :=
  match cs with
  | c :: r =>
    if c = 'e' ∨ c = 'E' then
      let (es, r1) : Int × List Char :=
        match r with
        | c2 :: r2 =>
          if c2 = '+' then (1, r2) else if c2 = '-' then (-1, r2) else (1, r)
        | [] => (1, r)
      let (ds, r3) := takeDigits r1
      if ds.isEmpty then none else some (es * (digitsToNat ds : Int), r3)
    else some (0, cs)
  | [] => some (0, cs)

/-- A JSON fraction part: `.` with mandatory digits, or nothing. -/
def pFraction (cs : List Char) : Option (List Char × List Char) :=
  match cs with
  | c :: r =>
    if c = '.' then
      let (ds, r1) := takeDigits r
      if ds.isEmpty then none else some (ds, r1)
    else some ([], cs)
  | [] => some ([], cs)

/-- The exact rational `sgn * 0.intfrac * 10^e`: numerator over a power of
ten. -/
def mkJRat (sgn : Int) (intDigits fracDigits : List Char) (e : Int) : JRat :=
  let m : Nat := digitsToNat (intDigits ++ fracDigits)
  let e2 : Int := e - fracDigits.length
  if 0 ≤ e2 then ⟨sgn * m * 10 ^ e2.toNat, 1⟩ else ⟨sgn * m, 10 ^ (-e2).toNat⟩

/-- A JSON number literal: optional `-`, integer part without leading
zeros, optional fraction and exponent. -/
def pNumber (cs : List Char) : Option (JRat × List Char) :=
  let (sgn, cs1) : Int × List Char :=
    match cs with
    | c :: r => if c = '-' then (-1, r) else (1, cs)
    | [] => (1, cs)
  let (ip, cs2) := takeDigits cs1
  if ip.isEmpty then none
  else if 1 < ip.length ∧ ip.head? = some '0' then none
  else
    match pFraction cs2 with
    | none => none
    | some (fd, cs3) =>
      match pExponent cs3 with
      | none => none
      | some (e, cs4) => some (mkJRat sgn ip fd e, cs4)

/-- Match a literal word at the head of the input. -/
def litMatch (lit : List Char) (cs : List Char) : Option (List Char) :=
  if lit.isPrefixOf cs then some (cs.drop lit.length) else none

/-- The parser's mode: a single value, or the element/member loop of an
array/object with the part already parsed. -/
inductive ParseMode
  | one
  | arrElems (acc : List Json)
  | objMembers (acc : List (String × Json))

/-- Fuelled recursive-descent JSON parser (`JSON.parse`).  The fuel only
bounds recursion depth so the definition is structural; `jsonParse` passes
ample fuel. -/
def pStep : Nat → ParseMode → List Char → Option (Json × List Char)
  | 0, _, _ => none
  | Nat.succ fuel, ParseMode.one, cs =>
    match skipWs cs with
    | [] => none
    | c :: rest =>
      if c = JsStr.dquote then
        match pStrGo [] rest with
        | some (s, r) => some (Json.str s, r)
        | none => none
      else if c = '[' then
        match skipWs rest with
        | c2 :: r2 =>
          if c2 = ']' then some (Json.arr [], r2)
          else pStep fuel (ParseMode.arrElems []) (skipWs rest)
        | [] => none
      else if c = JsStr.lcurly then
        match skipWs rest with
        | c2 :: r2 =>
          if c2 = JsStr.rcurly then some (Json.obj [], r2)
          else pStep fuel (ParseMode.objMembers []) (skipWs rest)
        | [] => none
      else
        match litMatch "null".data (c :: rest) with
        | some r => some (Json.null, r)
        | none =>
          match litMatch "true".data (c :: rest) with
          | some r => some (Json.bool true, r)
          | none =>
            match litMatch "false".data (c :: rest) with
            | some r => some (Json.bool false, r)
            | none =>
              match pNumber (c :: rest) with
              | some (q, r) => some (Json.num q, r)
              | none => none
  | Nat.succ fuel, ParseMode.arrElems acc, cs =>
    match pStep fuel ParseMode.one cs with
    | none => none
    | some (v, rest) =>
      match skipWs rest with
      | c :: r2 =>
        if c = ',' then pStep fuel (ParseMode.arrElems (acc ++ [v])) r2
        else if c = ']' then some (Json.arr (acc ++ [v]), r2)
        else none
      | [] => none
  | Nat.succ fuel, ParseMode.objMembers acc, cs =>
    match skipWs cs with
    | c :: r =>
      if c = JsStr.dquote then
        match pStrGo [] r with
        | none => none
        | some (k, r1) =>
          match skipWs r1 with
          | c2 :: r3 =>
            if c2 = ':' then
              match pStep fuel ParseMode.one r3 with
              | none => none
              | some (v, r4) =>
                match skipWs r4 with
                | c3 :: r6 =>
                  if c3 = ',' then pStep fuel (ParseMode.objMembers (acc ++ [(k, v)])) r6
                  else if c3 = JsStr.rcurly then some (Json.obj (acc ++ [(k, v)]), r6)
                  else none
                | [] => none
            else none
          | [] => none
      else none
    | [] => none

/-- `JSON.parse`: parse one value, demand only whitespace after it; `none`
models the thrown `SyntaxError`. -/
def jsonParse (s : String) : Option Json :=
  match pStep (4 * s.length + 16) ParseMode.one s.data with
  | some (v, rest) => if skipWs rest = [] then some v else none
  | none => none

/-- Decimal rendering of a `JRat` whose denominator is a power of ten
(JavaScript number-to-string, exact for these values): trailing fraction
zeros are trimmed. -/
def jratToString (q : JRat) : String :=
  if q.den = 1 then toString q.num
  else
    let sgnStr := if q.num < 0 then "-" else ""
    let a := q.num.natAbs
    let ipart := a / q.den
    let k := (toString q.den).length - 1
    let fracRaw := toString (a % q.den)
    let fracPadded := (List.replicate (k - fracRaw.length) '0').asString ++ fracRaw
    let fracTrimmed := ((fracPadded.data.reverse.dropWhile (· = '0')).reverse).asString
    if fracTrimmed = "" then sgnStr ++ toString ipart
    else sgnStr ++ toString ipart ++ "." ++ fracTrimmed

mutual

/-- `String(v)` as used inside `Array.prototype.join`: null (and undefined)
render as the empty string, arrays join recursively with commas, plain
objects render as `[object Object]`. -/
def jsDisplay : Json → String
  | Json.null => ""
  | Json.bool b => if b then "true" else "false"
  | Json.num q => jratToString q
  | Json.str s => s
  | Json.arr xs => jsJoin xs
  | Json.obj _ => "[object Object]"

/-- `Array.prototype.join(",")` over parsed JSON elements. -/
def jsJoin : List Json → String
  | [] => ""
  | [x] => jsDisplay x
  | x :: y :: xs => jsDisplay x ++ "," ++ jsJoin (y :: xs)

end

/-- JavaScript `ToNumber` of a whole (trimmed) string: empty → 0, signed
`Infinity`, unsigned `0x`/`0o`/`0b` radix literals, or a decimal literal
(integer and fraction digits optional but not both absent, optional
exponent); anything else is NaN. Decimal branch. -/
def jsDecimal (cs : List Char) : Option JRat :=
  let (ip, cs1) := takeDigits cs
  let (fd, cs2) : List Char × List Char :=
    match cs1 with
    | c :: r =>
      if c = '.' then
        let (d, r1) := takeDigits r
        (d, r1)
      else ([], cs1)
    | [] => ([], cs1)
  if ip.isEmpty ∧ fd.isEmpty then none
  else
    match pExponent cs2 with
    | none => none
    | some (e, cs3) => if cs3.isEmpty then some (mkJRat 1 ip fd e) else none

/-- Decimal `ToNumber` branch returning a `JsNum`. -/
def jsDecimalNum (cs : List Char) : JsNum :=
  match jsDecimal cs with
  | some q => JsNum.fin q
  | none => JsNum.nan

/-- A radix (hex/octal/binary) digit string folded to its value. -/
def radixAcc (radix : Nat) (valOf : Char → Option Nat) (acc : Nat) :
    List Char → Option Nat
  | [] => some acc
  | c :: cs =>
    match valOf c with
    | some v => radixAcc radix valOf (acc * radix + v) cs
    | none => none

/-- A nonempty radix literal body, NaN otherwise. -/
def radixNum (radix : Nat) (valOf : Char → Option Nat) (cs : List Char) : JsNum :=
  if cs.isEmpty then JsNum.nan
  else
    match radixAcc radix valOf 0 cs with
    | some n => JsNum.fin ⟨(n : Int), 1⟩
    | none => JsNum.nan

/-- The unsigned branch of string `ToNumber`: `Infinity`, a radix literal,
or a decimal literal. -/
def jsUnsignedNum (cs : List Char) : JsNum :=
  if cs = "Infinity".data then JsNum.inf false
  else
    match cs with
    | c1 :: c2 :: rest2 =>
      if c1 = '0' ∧ (c2 = 'x' ∨ c2 = 'X') then radixNum 16 hexDigitVal rest2
      else if c1 = '0' ∧ (c2 = 'o' ∨ c2 = 'O') then radixNum 8 octDigitVal rest2
      else if c1 = '0' ∧ (c2 = 'b' ∨ c2 = 'B') then radixNum 2 binDigitVal rest2
      else jsDecimalNum cs
    | _ => jsDecimalNum cs

/-- After an explicit sign only `Infinity` or a decimal literal may follow
(JavaScript gives NaN to a signed radix literal). -/
def jsSignedTail (cs : List Char) : JsNum :=
  if cs = "Infinity".data then JsNum.inf false else jsDecimalNum cs

/-- Negation of a JavaScript number. -/
def jsNegate : JsNum → JsNum
  | JsNum.nan => JsNum.nan
  | JsNum.inf b => JsNum.inf (!b)
  | JsNum.fin q => JsNum.fin ⟨-q.num, q.den⟩

/-- JavaScript `ToNumber` of a string. -/
def strToNumber (s : String) : JsNum :=
  let cs := ((s.data.dropWhile JsStr.jsWsChar).reverse.dropWhile JsStr.jsWsChar).reverse
  match cs with
  | [] => JsNum.fin ⟨0, 1⟩
  | c :: rest =>
    if c = '-' then jsNegate (jsSignedTail rest)
    else if c = '+' then jsSignedTail rest
    else jsUnsignedNum cs

/-- JavaScript `ToNumber` of a property-access result (`none` is
`undefined`): null → 0, booleans → 0/1, numbers unchanged, strings via the
string grammar, arrays via their joined string, plain objects → NaN. -/
def jsToNumber : Option Json → JsNum
  | none => JsNum.nan
  | some Json.null => JsNum.fin ⟨0, 1⟩
  | some (Json.bool b) => JsNum.fin ⟨if b then 1 else 0, 1⟩
  | some (Json.num q) => JsNum.fin q
  | some (Json.str s) => strToNumber s
  | some (Json.arr xs) => strToNumber (jsJoin xs)
  | some (Json.obj _) => JsNum.nan

/-- `exp * 1000` (1000 is positive, so infinities keep their sign and NaN
propagates). -/
def jsMul1000 : JsNum → JsNum
  | JsNum.nan => JsNum.nan
  | JsNum.inf b => JsNum.inf b
  | JsNum.fin q => JsNum.fin ⟨q.num * 1000, q.den⟩

/-- `Date.now() < v`: false against NaN and −∞, true against +∞, and the
exact comparison otherwise (the denominator is positive). -/
def jsLtNum (nowMs : Int) : JsNum → Bool
  | JsNum.nan => false
  | JsNum.inf b => !b
  | JsNum.fin q => nowMs * (q.den : Int) < q.num

/-- Property lookup in a parsed JSON object: the last duplicate key wins,
as in JavaScript assignment order. -/
def lookupLast (kvs : List (String × Json)) (k : String) : Option Json :=
  kvs.foldl (fun acc kv => if kv.1 = k then some kv.2 else acc) none

/-- `payload.exp`: a `TypeError` (error) on null, the member or `undefined`
(`none`) on an object, `undefined` on any other primitive or array. -/
def jsProp : Json → String → Except Unit (Option Json)
  | Json.null, _ => Except.error ()
  | Json.obj kvs, k => Except.ok (lookupLast kvs k)
  | _, _ => Except.ok none

/-- `token.split('.')[1]` as `atob` receives it: when the index is out of
range, JavaScript passes `undefined`, which `atob` coerces to the string
"undefined". -/
def tokenSeg (token : String) : String :=
  match (JsStr.splitOnChar '.' token.data)[1]? with
  | some cs => cs.asString
  | none => "undefined"

/-- `atob(token.split('.')[1])`, `none` when `atob` throws. -/
def decodedPayload (token : String) : Option String := atobJS (tokenSeg token)

/-- `JSON.parse(atob(token.split('.')[1]))`, `none` when either throws. -/
def parsedPayload (token : String) : Option Json :=
  (decodedPayload token).bind jsonParse

/-- `isAuthenticated` of `api.ts` lines 199-211: false without a stored
token; otherwise decode the payload, read `exp`, and compare
`Date.now() < exp * 1000`; any exception inside the `try` (atob,
JSON.parse, property access on null) yields false. -/
def isAuthenticated : Option String → Int → Bool
  | none, _ => false
  | some token, nowMs =>
    match parsedPayload token with
    | none => false
    | some payload =>
      match jsProp payload "exp" with
      | Except.error _ => false
      | Except.ok expv => jsLtNum nowMs (jsMul1000 (jsToNumber expv))

end Auth

/-!
## Concrete instances used by the theorems
-/

/-- All facts "good": old domain, known registrar, HTTPS with valid,
long-lived SSL, not blacklisted, datacenter hosting, two nameservers. -/
def goodFacts : Risk.DomainFacts :=
  ⟨some 365, some true, some true, some true, some 365, some false, some 0,
    Risk.HostingType.datacenter, some 2⟩

/-- Every rule that can fire together fires: young domain, unknown
registrar, no HTTPS, expiring SSL, blacklisted on nine sources, residential
hosting, no nameservers (rule 5 is mutually exclusive with rule 4). -/
def worstFacts : Risk.DomainFacts :=
  ⟨some 3, some false, some false, some false, some 10, some true, some 9,
    Risk.HostingType.residential, some 0⟩

/-- The C6 boundary input: blacklisted with four sources, all else good. -/
def boundaryFacts : Risk.DomainFacts :=
  ⟨some 365, some true, some true, some true, some 365, some true, some 4,
    Risk.HostingType.datacenter, some 2⟩

/-- All good except an SSL certificate expiring in 10 days and a blacklist
hit on one source: rules 6 (−0.5) and 7 (−4.5) both fire. -/
def expiringBlacklistedFacts : Risk.DomainFacts :=
  ⟨some 365, some true, some true, some true, some 10, some true, some 1,
    Risk.HostingType.datacenter, some 2⟩

/-- The spec's worked example: domain aged 3 days, all else good. -/
def ageThreeFacts : Risk.DomainFacts :=
  ⟨some 3, some true, some true, some true, some 365, some false, some 0,
    Risk.HostingType.datacenter, some 2⟩

/-- A JWT-shaped token whose payload is the JSON object with a STRING
`"exp"` member (base64 of the object mapping "exp" to the 14-digit numeric
string), flanked by dummy header/signature segments. -/
def strExpToken : String := "h.eyJleHAiOiI5OTk5OTk5OTk5OTk5OSJ9.s"

/-- A JWT-shaped token whose payload has a numeric `exp` member (base64,
with padding, of the object mapping "exp" to 99999999999). -/
def numExpToken : String := "h.eyJleHAiOjk5OTk5OTk5OTk5fQ==.s"

/-!
## Theorems settling the claims
-/

/-- Any `Bool`-valued field of `SecurityInfo` can hold only two states, so
no embedding of the three knowledge states present-true / present-false /
unknown into it can be injective. -/
lemma bool_field_two_state (g : Api.SecurityInfo → Bool) :
    ¬ Api.boolFieldTriState g := by
  rintro ⟨f, hinj⟩
  have h1 : g (f none) ≠ g (f (some false)) := hinj.ne (by simp)
  have h2 : g (f none) ≠ g (f (some true)) := hinj.ne (by simp)
  have h3 : g (f (some false)) ≠ g (f (some true)) := hinj.ne (by simp)
  have h4 : ∀ x y z : Bool, x ≠ y → x ≠ z → y ≠ z → False := by decide
  exact h4 _ _ _ h1 h2 h3

/-- C1: for every `DomainFacts` input the score of `evaluate` lies within
[1.0, 10.0] (in tenths: 10 ≤ score10 ≤ 100); in particular on the input
firing every compatible penalty rule at once the clamp stops the score at
exactly 1.0. -/
theorem evaluate_score_in_bounds :
    (∀ f : Risk.DomainFacts,
      10 ≤ (Risk.evaluate f).score10 ∧ (Risk.evaluate f).score10 ≤ 100) ∧
    (Risk.evaluate worstFacts).score10 = 10 := by
  refine ⟨fun f => ⟨le_max_left _ _, max_le (by norm_num) (min_le_left _ _)⟩, by decide⟩

/-- C4: the level of every `evaluate` result is the fixed threshold
function of its own score: LOW iff score ≥ 7.0, MEDIUM iff
4.0 ≤ score < 7.0, HIGH iff score < 4.0 (scores in tenths). -/
theorem level_matches_score_thresholds :
    ∀ f : Risk.DomainFacts,
      ((Risk.evaluate f).level = Risk.RiskLevel.LOW ↔ 70 ≤ (Risk.evaluate f).score10) ∧
      ((Risk.evaluate f).level = Risk.RiskLevel.MEDIUM ↔
        (40 ≤ (Risk.evaluate f).score10 ∧ (Risk.evaluate f).score10 < 70)) ∧
      ((Risk.evaluate f).level = Risk.RiskLevel.HIGH ↔ (Risk.evaluate f).score10 < 40) := by
  intro f
  show (Risk.levelOf (Risk.scoreOf f) = _ ↔ 70 ≤ Risk.scoreOf f) ∧
    (Risk.levelOf (Risk.scoreOf f) = _ ↔ (40 ≤ Risk.scoreOf f ∧ Risk.scoreOf f < 70)) ∧
    (Risk.levelOf (Risk.scoreOf f) = _ ↔ Risk.scoreOf f < 40)
  generalize Risk.scoreOf f = s
  unfold Risk.levelOf
  by_cases h1 : 70 ≤ s
  · rw [if_pos h1]
    exact ⟨by simp [h1], by simp; omega, by simp; omega⟩
  · rw [if_neg h1]
    by_cases h2 : 40 ≤ s
    · rw [if_pos h2]
      exact ⟨by simp; omega, by simp; omega, by simp; omega⟩
    · rw [if_neg h2]
      exact ⟨by simp; omega, by simp; omega, by simp; omega⟩

/-- C7: confidence of every `evaluate` result is determined by how many of
the nine input facts are unknown — LOW iff 3 or more, MEDIUM iff exactly 1
or 2, HIGH iff none — regardless of the remaining field values. -/
theorem confidence_from_unknown_count :
    ∀ f : Risk.DomainFacts,
      ((Risk.evaluate f).confidence = Risk.Confidence.LOW ↔ 3 ≤ Risk.unknownCount f) ∧
      ((Risk.evaluate f).confidence = Risk.Confidence.MEDIUM ↔
        (1 ≤ Risk.unknownCount f ∧ Risk.unknownCount f ≤ 2)) ∧
      ((Risk.evaluate f).confidence = Risk.Confidence.HIGH ↔ Risk.unknownCount f = 0) := by
  intro f
  show (Risk.confidenceOf (Risk.unknownCount f) = _ ↔ _) ∧
    (Risk.confidenceOf (Risk.unknownCount f) = _ ↔ _) ∧
    (Risk.confidenceOf (Risk.unknownCount f) = _ ↔ _)
  generalize Risk.unknownCount f = u
  unfold Risk.confidenceOf
  by_cases h1 : 3 ≤ u
  · rw [if_pos h1]
    exact ⟨by simp [h1], by simp; omega, by simp; omega⟩
  · rw [if_neg h1]
    by_cases h2 : 1 ≤ u
    · rw [if_pos h2]
      exact ⟨by simp; omega, by simp; omega, by simp; omega⟩
    · rw [if_neg h2]
      exact ⟨by simp; omega, by simp; omega, by simp; omega⟩

/-- C6: on any input with `blacklisted = true`, `blacklistSourceCount = 4`
and every other field good (age ≥ 30, registrar known, HTTPS with valid
SSL not expiring within 30 days, non-residential hosting, at least one
nameserver), `evaluate` scores 10.0 − 4.0 − 0.5·4 = 4.0 (tenths: 40) and
the level is MEDIUM (the ≥ 4.0 boundary). -/
theorem blacklist_boundary_scores_medium :
    ∀ f : Risk.DomainFacts,
      (∃ a, f.domainAgeDays = some a ∧ 30 ≤ a) →
      f.registrarKnown = some true →
      f.httpsEnabled = some true →
      f.sslValid = some true →
      (∃ d, f.sslExpiryDaysRemaining = some d ∧ 30 ≤ d) →
      f.blacklisted = some true →
      f.blacklistSourceCount = some 4 →
      f.hostingType ≠ Risk.HostingType.residential →
      (∃ n, f.nameserverCount = some n ∧ 1 ≤ n) →
      (Risk.evaluate f).score10 = 40 ∧ (Risk.evaluate f).level = Risk.RiskLevel.MEDIUM := by
  rintro f ⟨a, hd, ha⟩ hr hh hs ⟨d, he, hd30⟩ hb hc hht ⟨n, hn, hn1⟩
  have ha30 : ¬ a < 30 := by omega
  have ha7 : ¬ a < 7 := by omega
  have hd' : ¬ d < 30 := by omega
  have hn0 : ¬ n = 0 := by omega
  have h1 : Risk.rule1 f = [] := by simp [Risk.rule1, hd, ha30]
  have h2 : Risk.rule2 f = [] := by simp [Risk.rule2, hd, ha7]
  have h3 : Risk.rule3 f = [] := by simp [Risk.rule3, hr]
  have h4 : Risk.rule4 f = [] := by simp [Risk.rule4, hh]
  have h5 : Risk.rule5 f = [] := by simp [Risk.rule5, hh, hs]
  have h6 : Risk.rule6 f = [] := by simp [Risk.rule6, he, hd']
  have h7 : Risk.rule7 f = [(60, "Listed on 4 threat intelligence source(s)")] := by
    unfold Risk.rule7
    rw [hb, hc]
    decide
  have h8 : Risk.rule8 f = [] := by simp [Risk.rule8, hht]
  have h9 : Risk.rule9 f = [] := by simp [Risk.rule9, hn, hn0]
  have hhits : Risk.ruleHits f = [(60, "Listed on 4 threat intelligence source(s)")] := by
    unfold Risk.ruleHits
    rw [h1, h2, h3, h4, h5, h6, h7, h8, h9]
    rfl
  have hscore : Risk.scoreOf f = 40 := by
    unfold Risk.scoreOf Risk.totalPenalty
    rw [hhits]
    rfl
  exact ⟨hscore, by show Risk.levelOf (Risk.scoreOf f) = _; rw [hscore]; rfl⟩

/-- C6 witness: the theorem applied to the concrete boundary input. -/
theorem blacklist_boundary_witness :
    (Risk.evaluate boundaryFacts).score10 = 40 ∧
    (Risk.evaluate boundaryFacts).level = Risk.RiskLevel.MEDIUM :=
  blacklist_boundary_scores_medium boundaryFacts ⟨365, rfl, by omega⟩ rfl rfl rfl
    ⟨365, rfl, by omega⟩ rfl rfl (by decide) ⟨2, rfl, by omega⟩

/-- C5 counterexample: on the input where the SSL-expiring rule (−0.5) and
the blacklist rule (−4.5) both fire, the reasons come out in rule-table
order with the smaller penalty first, so they are not ordered by descending
penalty magnitude. -/
theorem reasons_not_sorted_by_weight :
    Risk.ruleHits expiringBlacklistedFacts =
      [(5, "SSL certificate expiring soon"),
        (45, "Listed on 1 threat intelligence source(s)")] ∧
    (Risk.evaluate expiringBlacklistedFacts).reasons =
      ["SSL certificate expiring soon", "Listed on 1 threat intelligence source(s)"] ∧
    ¬ List.Pairwise (fun x y : Int × String => y.1 ≤ x.1)
        (Risk.ruleHits expiringBlacklistedFacts) := by
  decide

/-- C5 amended: the reasons of every `evaluate` result are exactly the
fired rules' reasons in the fixed rule-table source order (not re-sorted by
weight); on the spec's domainAgeDays = 3 example this gives
["Recently registered domain", "Domain registered within the last week"],
score 5.0 and level MEDIUM. -/
theorem reasons_in_rule_order :
    (∀ f : Risk.DomainFacts,
      (Risk.evaluate f).reasons = (Risk.ruleHits f).map Prod.snd) ∧
    (Risk.evaluate ageThreeFacts).reasons =
      ["Recently registered domain", "Domain registered within the last week"] ∧
    (Risk.evaluate ageThreeFacts).score10 = 50 ∧
    (Risk.evaluate ageThreeFacts).level = Risk.RiskLevel.MEDIUM := by
  exact ⟨fun f => rfl, by decide, by decide, by decide⟩

/-- C2 counterexample: the frontend `SecurityInfo.https_enabled` field is a
plain boolean, so the three knowledge states (unknown / false / true)
cannot be represented distinguishably in it — no injective embedding of
`Option Bool` into the field exists. -/
theorem securityinfo_bool_not_tristate :
    ¬ Api.boolFieldTriState Api.SecurityInfo.https_enabled :=
  bool_field_two_state Api.SecurityInfo.https_enabled

/-- C2 amended: the aggregator-side facts and the optional frontend fields
carry a genuine unknown state (`Option` wrappers embed injectively), but
the three boolean `SecurityInfo` fields `https_enabled`, `ssl_valid` and
`blacklisted` are two-valued, so for them "unknown" is not distinguishable
from false at the frontend boundary. -/
theorem unknown_representation_status :
    (∃ g : Option Bool → Risk.DomainFacts,
      Function.Injective fun ob => (g ob).httpsEnabled) ∧
    (∃ g : Option String → Api.SecurityInfo,
      Function.Injective fun o => (g o).ssl_expiry) ∧
    ¬ Api.boolFieldTriState Api.SecurityInfo.https_enabled ∧
    ¬ Api.boolFieldTriState Api.SecurityInfo.ssl_valid ∧
    ¬ Api.boolFieldTriState Api.SecurityInfo.blacklisted := by
  refine ⟨⟨fun ob => ⟨none, none, ob, none, none, none, none,
    Risk.HostingType.unknown, none⟩, ?_⟩,
    ⟨fun o => ⟨false, false, none, o, false, none⟩, ?_⟩,
    bool_field_two_state _, bool_field_two_state _, bool_field_two_state _⟩
  · intro x y h
    simpa using h
  · intro x y h
    simpa using h

/-- C3 counterexample: the badge of `RiskAssessmentCard` renders the HIGH
level as the text "CRITICAL", not as the level value "HIGH". -/
theorem badge_high_renders_critical :
    Card.riskBadgeText Risk.RiskLevel.HIGH = "CRITICAL" ∧
    Card.riskBadgeText Risk.RiskLevel.HIGH ≠ "HIGH" := by
  decide

/-- C3 amended: the badge text equals the level string for LOW and MEDIUM,
but a HIGH level is rendered as "CRITICAL". -/
theorem badge_text_by_level :
    Card.riskBadgeText Risk.RiskLevel.LOW = Card.riskLevelString Risk.RiskLevel.LOW ∧
    Card.riskBadgeText Risk.RiskLevel.MEDIUM = Card.riskLevelString Risk.RiskLevel.MEDIUM ∧
    Card.riskBadgeText Risk.RiskLevel.HIGH = "CRITICAL" := by
  decide

/-- C8 counterexample: the empty string is an unparseable input
(`new Date("")` is invalid; here `noDate` parses nothing), yet
`formatSslExpiry` returns "—" for it instead of echoing it, because the
JavaScript guard `!expiryStr` also catches the empty string. -/
theorem formatSslExpiry_empty_not_echoed :
    Card.formatSslExpiry Card.noDate Card.fixedFmt 0 (some "") = ("—", false) ∧
    Card.noDate "" = none ∧
    ("—", false) ≠ (("" : String), false) := by
  decide

/-- The warning flag and EXPIRED prefix of `formatParsed`: the flag is set
exactly when the floored day count is below 30, and a negative day count
yields a display beginning with "EXPIRED". -/
lemma formatParsed_spec (fd : Int → String) (now t : Int) :
    ((Card.formatParsed fd now t).2 = decide (Int.fdiv (t - now) 86400000 < 30)) ∧
    (Int.fdiv (t - now) 86400000 < 0 →
      JsStr.jsStartsWith (Card.formatParsed fd now t).1 "EXPIRED" = true) := by
  unfold Card.formatParsed
  by_cases hneg : Int.fdiv (t - now) 86400000 < 0
  · rw [if_pos hneg]
    refine ⟨?_, fun _ => ?_⟩
    · have h30 : Int.fdiv (t - now) 86400000 < 30 := by omega
      simp [h30]
    · unfold JsStr.jsStartsWith
      rw [List.isPrefixOf_iff_prefix, String.data_append, String.data_append,
        List.append_assoc]
      exact List.IsPrefix.trans ⟨" (".data, rfl⟩ (List.prefix_append _ _)
  · rw [if_neg hneg]
    by_cases h30 : Int.fdiv (t - now) 86400000 < 30
    · rw [if_pos h30]
      exact ⟨by simp [h30], fun h => absurd h hneg⟩
    · rw [if_neg h30]
      exact ⟨by simp [h30], fun h => absurd h hneg⟩

/-- C8 amended: `formatSslExpiry` is total; it returns "—" for a missing OR
empty input, echoes any other unparseable input with `isWarning = false`,
and for a parseable date sets `isWarning` exactly when the whole number of
days until expiry (floor) is below 30, the display beginning with "EXPIRED"
for negative day counts. -/
theorem formatSslExpiry_behaviour :
    (∀ pd fd now, Card.formatSslExpiry pd fd now none = ("—", false)) ∧
    (∀ pd fd now, Card.formatSslExpiry pd fd now (some "") = ("—", false)) ∧
    (∀ pd fd now s, s ≠ "" → pd s = none →
      Card.formatSslExpiry pd fd now (some s) = (s, false)) ∧
    (∀ pd fd now s t, s ≠ "" → pd s = some t →
      ((Card.formatSslExpiry pd fd now (some s)).2 =
        decide (Int.fdiv (t - now) 86400000 < 30)) ∧
      (Int.fdiv (t - now) 86400000 < 0 →
        JsStr.jsStartsWith (Card.formatSslExpiry pd fd now (some s)).1 "EXPIRED" = true)) := by
  refine ⟨fun pd fd now => rfl, fun pd fd now => rfl, ?_, ?_⟩
  · intro pd fd now s hs hpd
    simp only [Card.formatSslExpiry]
    rw [if_neg hs, hpd]
  · intro pd fd now s t hs hpd
    simp only [Card.formatSslExpiry]
    rw [if_neg hs, hpd]
    exact formatParsed_spec fd now t

/-- C9 counterexample: with a whitespace-only search term the filtered
dataset is the full dataset, yet the High Alert Zone is the computed top
city of that dataset, not the hard-coded "Jamtara, JH" (the zone guard
tests the raw, untrimmed term). -/
theorem whitespace_term_not_jamtara :
    Threats.filteredThreats Threats.demoData1 " " = Threats.demoData1 ∧
    Threats.highAlertZone Threats.demoData1 " " = "Mumbai" ∧
    Threats.highAlertZone Threats.demoData1 " " ≠ "Jamtara, JH" := by
  decide

/-- C9 amended: an empty or whitespace-only term leaves the dataset
unfiltered; the High Alert Zone is "Jamtara, JH" exactly for the empty
term, while any non-empty term — whitespace-only ones included — yields the
most frequent city of the filtered data (or "N/A" when it is empty). -/
theorem high_alert_zone_behaviour :
    (∀ data term, JsStr.jsTrim term = "" → Threats.filteredThreats data term = data) ∧
    (∀ data : List Threats.ThreatPoint, Threats.highAlertZone data "" = "Jamtara, JH") ∧
    (∀ data term, term ≠ "" →
      Threats.highAlertZone data term =
        (match Threats.topEntry (Threats.cityEntries (Threats.filteredThreats data term)) with
          | some e => e.1
          | none => "N/A")) := by
  refine ⟨?_, fun data => rfl, ?_⟩
  · intro data term h
    simp [Threats.filteredThreats, h]
  · intro data term h
    simp [Threats.highAlertZone, h]

/-- C10 counterexample: a stored token whose payload's `exp` member is a
JSON STRING (not a number) still authenticates, because the JavaScript
multiplication `exp * 1000` coerces the numeric string. -/
theorem string_exp_token_authenticates :
    Auth.parsedPayload strExpToken =
      some (Auth.Json.obj [("exp", Auth.Json.str "99999999999999")]) ∧
    Auth.isAuthenticated (some strExpToken) 1760000000000 = true :=
  ⟨rfl, rfl⟩

/-- C10 amended: `isAuthenticated` is total — false for an absent token and
for any token whose base64 decode or JSON parse fails — and it returns true
only when the decoded payload's `exp` property, under JavaScript number
coercion (JSON numbers and numeric strings alike), times 1000, lies
strictly after the current time; a genuine numeric-exp token authenticates
and garbage does not. -/
theorem isAuthenticated_behaviour :
    (∀ now, Auth.isAuthenticated none now = false) ∧
    (∀ t now, Auth.parsedPayload t = none → Auth.isAuthenticated (some t) now = false) ∧
    (∀ t now, Auth.isAuthenticated (some t) now = true →
      ∃ payload, Auth.parsedPayload t = some payload ∧
        ∃ expv, Auth.jsProp payload "exp" = Except.ok expv ∧
          Auth.jsLtNum now (Auth.jsMul1000 (Auth.jsToNumber expv)) = true) ∧
    Auth.isAuthenticated (some numExpToken) 1760000000000 = true ∧
    Auth.isAuthenticated (some "garbage") 1760000000000 = false := by
  refine ⟨fun now => rfl, ?_, ?_, rfl, rfl⟩
  · intro t now h
    simp only [Auth.isAuthenticated]
    rw [h]
  · intro t now h
    simp only [Auth.isAuthenticated] at h
    cases hp : Auth.parsedPayload t with
    | none =>
      rw [hp] at h
      exact Bool.noConfusion (show false = true from h)
    | some payload =>
      rw [hp] at h
      have h2 : (match Auth.jsProp payload "exp" with
        | Except.error _ => false
        | Except.ok expv =>
          Auth.jsLtNum now (Auth.jsMul1000 (Auth.jsToNumber expv))) = true := h
      cases hpr : Auth.jsProp payload "exp" with
      | error e =>
        rw [hpr] at h2
        exact Bool.noConfusion (show false = true from h2)
      | ok expv =>
        rw [hpr] at h2
        exact ⟨payload, rfl, expv, hpr, h2⟩
